import Mathlib

/-!
Shallow embedding of the surgical-transcription RAG service
(`app.py`, `build_database.py`).  External services (the generative-AI
provider, the vector store, the media tool, the filesystem) are modelled
as oracles supplied through environment records; the glue logic of the
repository is translated function by function.  Machine-level effects
(printing, logging) are dropped; every other branch of the source is kept.
-/

namespace SurgicalRAG

/-- Result of one call into an external service: either a returned value or
a raised exception carrying the text of the exception message (the `str(e)`
that the source interpolates into its error strings). -/
inductive Outcome (α : Type) where
  | ok : α → Outcome α
  | exn : String → Outcome α
  deriving DecidableEq

/-- Substring containment on character lists, the semantics of the Python
`in` operator on `str`. -/
def isSubstrOf (pat s : List Char) : Bool :=
  (List.range (s.length + 1)).any (fun i => pat.isPrefixOf (s.drop i))

/-- Substring containment lifted to `String`. -/
def strContains (pat s : String) : Bool := isSubstrOf pat.data s.data

end SurgicalRAG

namespace SurgicalRAG.App

/-- Name of the collection the serving path opens (`app.py`, line 27). -/
def COLLECTION_NAME : String := "medical_manuals"

/-- The persisted vector store as seen through the chromadb client: the list
of collection names that exist on disk. -/
structure VectorStore where
  collections : List String
  deriving DecidableEq

/-- Embedding of `initialize_database` (`app.py`, lines 46-71): if the
database directory is missing it returns `None`; otherwise it asks the
client for the collection named `COLLECTION_NAME`, and `get_collection`
raises (caught, returning `None`) when no collection of that name exists.
`some name` stands for a successfully opened handle on that collection. -/
def initialize_database (dirExists : Bool) (store : VectorStore) : Option String :=
  if dirExists = false then none
  else if COLLECTION_NAME ∈ store.collections then some COLLECTION_NAME
  else none

/-- Oracle for one run of `transcribe_audio` (`app.py`, lines 104-118):
the three external calls it makes, in source order.  `upload` returns the
remote artifact name, `generate` returns `response.text`, `deleteFile`
models `genai.delete_file`. -/
structure TranscribeEnv where
  upload : Outcome String
  generate : Outcome String
  deleteFile : Outcome Unit

/-- What a run of `transcribe_audio` produced: the returned string and
whether the remote-artifact deletion was attempted before returning. -/
structure TranscribeResult where
  text : String
  deleteCalled : Bool
  deriving DecidableEq

/-- Embedding of `transcribe_audio` (`app.py`, lines 104-118).  The single
`try` block uploads, generates, deletes the remote artifact and returns
`response.text`; any exception from any of the three calls is caught by the
one `except` clause, which returns the string
`"Error during transcription: " ++ e`. -/
def transcribe_audio (env : TranscribeEnv) : TranscribeResult :=
  match env.upload with
  | .exn e => ⟨"Error during transcription: " ++ e, false⟩
  | .ok _name =>
    match env.generate with
    | .exn e => ⟨"Error during transcription: " ++ e, false⟩
    | .ok text =>
      match env.deleteFile with
      | .exn e => ⟨"Error during transcription: " ++ e, true⟩
      | .ok _ => ⟨text, true⟩

/-- Oracle for one run of `get_rag_analysis` (`app.py`, lines 121-162).
`collectionOk` says whether the module-level `collection` handle is set
(not `None`).  `query qs n` models `collection.query(query_texts=qs,
n_results=n)` followed by the `results['documents'][0]` projection, so it
returns the list of document texts for the first query string.  `generate`
models `model.generate_content` on the combined prompt. -/
structure RagEnv where
  collectionOk : Bool
  query : List String → Nat → Outcome (List String)
  generate : String → Outcome String

/-- What a run of `get_rag_analysis` produced: the returned string, the
arguments of the store query when one was issued, the joined context block
when one was formed, and the composite prompt when generation was reached. -/
structure RagResult where
  text : String
  queryCall : Option (List String × Nat)
  retrievedContext : Option String
  promptSent : Option String
  deriving DecidableEq

/-- Delimiter joining retrieved chunks (`app.py`, line 134). -/
def ragDelim : String := "\n\n---\n\n"

/-- Error string returned when the collection handle is unset
(`app.py`, line 125). -/
def chromaFailMsg : String :=
  "Error: ChromaDB connection failed. Cannot perform RAG analysis."

/-- Embedding of the f-string building `combined_prompt`
(`app.py`, lines 137-154). -/
def combined_prompt (system_prompt retrieved_docs user_prompt transcript : String) : String :=
  "\n" ++ system_prompt ++
  "\n\n**Medical Context from Documentation:**\n---\n" ++ retrieved_docs ++
  "\n---\n\n**User\x27s Analysis Query:**\n" ++ user_prompt ++
  "\n\n**Surgical Transcript to Analyze:**\n---\n" ++ transcript ++
  "\n---\n\nBased *only* on the provided Medical Context, perform the analysis requested in the User\x27s Query on the Surgical Transcript.\n"

/-- Embedding of `get_rag_analysis` (`app.py`, lines 121-162): fail fast
when the collection handle is unset; otherwise query the store with the
transcript as the single query text and `n_results=5`, join the returned
documents with `ragDelim`, build the composite prompt, and call the
generation model.  Any exception inside the `try` is caught and returned
as `"An error occurred during the RAG workflow: " ++ e`. -/
def get_rag_analysis (env : RagEnv) (transcript system_prompt user_prompt : String) :
    RagResult :=
  if env.collectionOk = false then
    ⟨chromaFailMsg, none, none, none⟩
  else
    match env.query [transcript] 5 with
    | .exn e =>
      ⟨"An error occurred during the RAG workflow: " ++ e, some ([transcript], 5), none, none⟩
    | .ok docs =>
      let retrieved_docs := String.intercalate ragDelim docs
      let prompt := combined_prompt system_prompt retrieved_docs user_prompt transcript
      match env.generate prompt with
      | .exn e =>
        ⟨"An error occurred during the RAG workflow: " ++ e, some ([transcript], 5),
          some retrieved_docs, some prompt⟩
      | .ok text =>
        ⟨text, some ([transcript], 5), some retrieved_docs, some prompt⟩

/-- JSON body of a response from `/analyze`: either the success object
with `transcript` and `analysis` fields, or an object with an `error`
field. -/
inductive Payload where
  | success : String → String → Payload
  | error : String → Payload
  deriving DecidableEq

/-- HTTP status code paired with the JSON body. -/
structure HttpResponse where
  status : Nat
  payload : Payload
  deriving DecidableEq

/-- Oracle for one run of the `/analyze` handler (`app.py`, lines 173-218):
the parsed request (presence of the `video` part, its filename, the two
optional form fields), the generated video path, and the outcome of each
external step in source order.  `extractResult` models
`extract_audio_from_video`, which returns the new audio path on success
and `None` on any failure (its internal `try` catches everything). -/
structure RequestEnv where
  hasVideoField : Bool
  filename : String
  system_prompt_field : Option String
  user_prompt_field : Option String
  videoPath : String
  save : Outcome Unit
  extractResult : Option String
  transcribe : TranscribeEnv
  rag : RagEnv

/-- Everything observable about one run of the `/analyze` handler: the
HTTP response, the local filesystem after the `finally` block, whether the
transcription step ran, whether `get_rag_analysis` ran, and the record of
the RAG run when it did. -/
structure HandlerResult where
  resp : HttpResponse
  fs : List String
  transcribeCalled : Bool
  ragCalled : Bool
  rag : Option RagResult

/-- Deletion of a path from the local filesystem (`os.remove`). -/
def removeFile (p : String) (fs : List String) : List String :=
  fs.filter (fun q => q ≠ p)

/-- The `finally` block (`app.py`, lines 212-218): remove the video path if
the variable is set and the file exists, then likewise the audio path.
Removal of an absent path is a no-op, which absorbs the `os.path.exists`
guards. -/
def cleanupFiles (videoPath audioPath : Option String) (fs : List String) : List String :=
  let fs1 := match videoPath with
    | none => fs
    | some p => removeFile p fs
  match audioPath with
  | none => fs1
  | some p => removeFile p fs1

/-- Embedding of the `/analyze` handler `analyze_video`
(`app.py`, lines 173-218), acting on an initial filesystem `fs0` (the set
of existing paths).  The two validation checks return 400 before any file
is written; the `try` body saves the upload, extracts audio, transcribes,
tests the transcript for the substring `"Error during transcription"`, and
otherwise runs the RAG analysis and returns 200 with transcript and
analysis; a raised exception (here: from `file.save`) is caught by the
`except` clause as a 500; the `finally` cleanup runs on every exit path
that entered the `try`. -/
def analyze_video (env : RequestEnv) (fs0 : List String) : HandlerResult :=
  if env.hasVideoField = false then
    ⟨⟨400, .error "No video file part"⟩, fs0, false, false, none⟩
  else
    let system_prompt := env.system_prompt_field.getD "No system prompt provided"
    let user_prompt := env.user_prompt_field.getD "No user prompt provided"
    if env.filename = "" then
      ⟨⟨400, .error "No selected file"⟩, fs0, false, false, none⟩
    else
      match env.save with
      | .exn e =>
        ⟨⟨500, .error ("An unexpected server error occurred: " ++ e)⟩,
          cleanupFiles (some env.videoPath) none fs0, false, false, none⟩
      | .ok _ =>
        let fs1 := env.videoPath :: fs0
        match env.extractResult with
        | none =>
          ⟨⟨500, .error "Failed to extract audio from video"⟩,
            cleanupFiles (some env.videoPath) none fs1, false, false, none⟩
        | some audioPath =>
          let fs2 := audioPath :: fs1
          let tr := transcribe_audio env.transcribe
          if strContains "Error during transcription" tr.text then
            ⟨⟨500, .error tr.text⟩,
              cleanupFiles (some env.videoPath) (some audioPath) fs2, true, false, none⟩
          else
            let rg := get_rag_analysis env.rag tr.text system_prompt user_prompt
            ⟨⟨200, .success tr.text rg.text⟩,
              cleanupFiles (some env.videoPath) (some audioPath) fs2, true, true, some rg⟩

end SurgicalRAG.App

namespace SurgicalRAG.BuildDatabase

/-- Name of the collection the corpus builder creates
(`build_database.py`, line 25). -/
def COLLECTION_NAME : String := "merck_manual"

/-- The identifiers the builder assigns to one batch starting at offset
`i`: `[f"chunk_{i+j}" for j in range(len(batch_chunks))]`
(`build_database.py`, line 57). -/
def batchIds (i len : Nat) : List String :=
  (List.range len).map (fun j => "chunk_" ++ toString (i + j))

/-- Loop body of `embed_and_store_chunks` (`build_database.py`,
lines 53-57), translated to structural recursion: the Python loop
`for i in range(0, len(chunks), batch_size)` slices 100 chunks per
iteration and builds the batch identifiers from the running offset `i`.
The `fuel` argument is only a structural bound on the number of
iterations; the wrapper passes `chunks.length`, which always suffices
since every iteration consumes at least one chunk. -/
def embedGo : Nat → Nat → List String → List String
  | 0, _, _ => []
  | _, _, [] => []
  | fuel + 1, i, c :: rest =>
    batchIds i ((c :: rest).take 100).length ++
      embedGo fuel (i + 100) ((c :: rest).drop 100)

/-- The full, ordered list of identifiers one call of
`embed_and_store_chunks` passes to `collection.add` over all its batches
(`build_database.py`, lines 50-92). -/
def embed_and_store_ids (chunks : List String) : List String :=
  embedGo chunks.length 0 chunks

/-- The identifiers accumulated in the collection over one run of `main`
(`build_database.py`, lines 94-148): `embed_and_store_chunks` is called
once per PDF file, each time starting its offset loop afresh at 0. -/
def main_run_ids (chunksPerPdf : List (List String)) : List String :=
  (chunksPerPdf.map embed_and_store_ids).flatten

/-- State of the vector store right after a fresh run of the builder
`main`: any previous collection of the builder name was dropped and the
single collection `COLLECTION_NAME` was created
(`build_database.py`, lines 106-111). -/
def builder_result_store : SurgicalRAG.App.VectorStore :=
  ⟨[COLLECTION_NAME]⟩

end SurgicalRAG.BuildDatabase

namespace SurgicalRAG

/-- Characters of the list strictly after the first occurrence of the
character `a` (the whole list consumed when `a` does not occur). -/
def afterChar (a : Char) : List Char → List Char
  | [] => []
  | c :: t => if c = a then t else afterChar a t

/-- The four strings `a`, `b`, `c`, `d` occur verbatim, non-overlapping
and in this order inside `s`: `s` splits as filler, `a`, filler, `b`,
filler, `c`, filler, `d`, filler. -/
def ContainsOrdered (a b c d s : String) : Prop :=
  ∃ w0 w1 w2 w3 w4 : String,
    s = w0 ++ a ++ w1 ++ b ++ w2 ++ c ++ w3 ++ d ++ w4

/-- Numeric value of a decimal digit character. -/
def decDigitVal (c : Char) : Nat := c.toNat - 48

/-- Value of a most-significant-digit-first decimal character string. -/
def decVal (l : List Char) : Nat :=
  l.foldl (fun v c => v * 10 + decDigitVal c) 0

end SurgicalRAG

namespace SurgicalRAG.App

/-- Transcription oracle for a fully successful request. -/
def happyTranscribe : TranscribeEnv :=
  ⟨.ok "files/audio-1", .ok "Incision made at midline.", .ok ()⟩

/-- RAG oracle for a fully successful request: the collection handle is
open, the store returns two chunks, generation succeeds. -/
def happyRag : RagEnv :=
  ⟨true, fun _ _ => .ok ["A relevant passage", "An irrelevant passage"],
    fun _ => .ok "analysis text"⟩

/-- A request on which every stage succeeds. -/
def reqBase : RequestEnv :=
  ⟨true, "op.mp4", none, none, "uploads/123-op.mp4", .ok (),
    some "uploads/456.mp3", happyTranscribe, happyRag⟩

/-- Same request with the `video` form part absent. -/
def reqMissingVideo : RequestEnv :=
  ⟨false, "op.mp4", none, none, "uploads/123-op.mp4", .ok (),
    some "uploads/456.mp3", happyTranscribe, happyRag⟩

/-- Same request with an empty upload filename. -/
def reqEmptyFilename : RequestEnv :=
  ⟨true, "", none, none, "uploads/123-op.mp4", .ok (),
    some "uploads/456.mp3", happyTranscribe, happyRag⟩

/-- Same request, but the remote generation call of the analysis stage
raises (failure or timeout). -/
def reqGenFail : RequestEnv :=
  ⟨true, "op.mp4", none, none, "uploads/123-op.mp4", .ok (),
    some "uploads/456.mp3", happyTranscribe,
    ⟨true, fun _ _ => .ok ["A relevant passage"], fun _ => .exn "generation timeout"⟩⟩

/-- Same request, but the collection handle failed to open at startup. -/
def reqNoCollection : RequestEnv :=
  ⟨true, "op.mp4", none, none, "uploads/123-op.mp4", .ok (),
    some "uploads/456.mp3", happyTranscribe,
    ⟨false, fun _ _ => .ok ["A relevant passage"], fun _ => .ok "analysis text"⟩⟩

/-- Same request, but the transcription succeeds with a transcript that
happens to contain the phrase the handler greps for. -/
def reqMarkerTranscript : RequestEnv :=
  ⟨true, "op.mp4", none, none, "uploads/123-op.mp4", .ok (),
    some "uploads/456.mp3",
    ⟨.ok "files/audio-1", .ok "Note: an Error during transcription was read aloud.", .ok ()⟩,
    happyRag⟩

end SurgicalRAG.App

namespace SurgicalRAG

/-! Helper lemmas about the cleanup of temporary files. -/

theorem not_mem_removeFile (p : String) (fs : List String) :
    p ∉ App.removeFile p fs := by
  intro h
  rcases List.mem_filter.mp h with ⟨-, hne⟩
  simp at hne

theorem mem_of_mem_removeFile {x p : String} {fs : List String}
    (h : x ∈ App.removeFile p fs) : x ∈ fs :=
  (List.mem_filter.mp h).1

theorem not_mem_cleanup_video (v : String) (ao : Option String) (fs : List String) :
    v ∉ App.cleanupFiles (some v) ao fs := by
  unfold App.cleanupFiles
  cases ao with
  | none => exact not_mem_removeFile v fs
  | some a =>
    intro h
    exact not_mem_removeFile v fs (mem_of_mem_removeFile h)

theorem not_mem_cleanup_audio (v a : String) (fs : List String) :
    a ∉ App.cleanupFiles (some v) (some a) fs :=
  not_mem_removeFile a (App.removeFile v fs)

theorem mem_of_mem_cleanup (x : String) (vo ao : Option String) (fs : List String)
    (h : x ∈ App.cleanupFiles vo ao fs) : x ∈ fs := by
  unfold App.cleanupFiles at h
  cases ao with
  | none =>
    cases vo with
    | none => exact h
    | some v => exact mem_of_mem_removeFile h
  | some a =>
    cases vo with
    | none => exact mem_of_mem_removeFile h
    | some v => exact mem_of_mem_removeFile (mem_of_mem_removeFile h)

/-- Claim C1: the serving path opens the very collection the corpus builder
creates.  The code refutes this: the builder creates `merck_manual` while
`initialize_database` opens `medical_manuals`, so after a fresh builder run
the server startup finds no collection and the handle stays `None`. -/
theorem C1_collection_name_mismatch :
    App.initialize_database true BuildDatabase.builder_result_store = none ∧
    App.COLLECTION_NAME ≠ BuildDatabase.COLLECTION_NAME := by
  decide

/-- Claim C5: on every exit path of the analyze handler — success or
failure at any stage — the saved video temporary file and the derived
audio temporary file are absent from the filesystem when the handler
returns, provided the generated temporary paths were fresh at request
start. -/
theorem C5_cleanup_on_every_path (env : App.RequestEnv) (fs0 : List String)
    (hv : env.videoPath ∉ fs0)
    (ha : ∀ ap, env.extractResult = some ap → ap ∉ fs0) :
    env.videoPath ∉ (App.analyze_video env fs0).fs ∧
      ∀ ap, env.extractResult = some ap → ap ∉ (App.analyze_video env fs0).fs := by
  unfold App.analyze_video
  dsimp only
  split
  · exact ⟨hv, ha⟩
  · split
    · exact ⟨hv, ha⟩
    · split
      · -- file.save raised; no file was created and cleanup still ran
        refine ⟨?_, ?_⟩
        · exact not_mem_cleanup_video env.videoPath none fs0
        · intro ap hap hmem
          exact ha ap hap (mem_of_mem_cleanup ap (some env.videoPath) none fs0 hmem)
      · -- file.save succeeded
        split
        · -- audio extraction failed
          rename_i heq
          refine ⟨?_, ?_⟩
          · exact not_mem_cleanup_video env.videoPath none (env.videoPath :: fs0)
          · intro ap hap
            rw [heq] at hap
            exact absurd hap (by simp)
        · -- audio extraction succeeded
          rename_i audioPath heq
          split
          · refine ⟨?_, ?_⟩
            · exact not_mem_cleanup_video env.videoPath (some audioPath)
                (audioPath :: env.videoPath :: fs0)
            · intro ap hap
              rw [heq] at hap
              cases hap
              exact not_mem_cleanup_audio env.videoPath audioPath
                (audioPath :: env.videoPath :: fs0)
          · refine ⟨?_, ?_⟩
            · exact not_mem_cleanup_video env.videoPath (some audioPath)
                (audioPath :: env.videoPath :: fs0)
            · intro ap hap
              rw [heq] at hap
              cases hap
              exact not_mem_cleanup_audio env.videoPath audioPath
                (audioPath :: env.videoPath :: fs0)

/-- Witness for C5 at a concrete fully successful request. -/
theorem C5_cleanup_witness :
    App.reqBase.videoPath ∉ (App.analyze_video App.reqBase []).fs ∧
      ∀ ap, App.reqBase.extractResult = some ap →
        ap ∉ (App.analyze_video App.reqBase []).fs :=
  C5_cleanup_on_every_path App.reqBase [] (by simp) (by simp)

/-- Claim C7: a request missing the `video` part, or carrying an empty
filename, is answered with HTTP 400 and an error payload, no temporary
file is created, and no later pipeline stage runs. -/
theorem C7_validation_rejects_early (env : App.RequestEnv) (fs0 : List String) :
    (env.hasVideoField = false →
      App.analyze_video env fs0 =
        ⟨⟨400, .error "No video file part"⟩, fs0, false, false, none⟩) ∧
    (env.hasVideoField = true → env.filename = "" →
      App.analyze_video env fs0 =
        ⟨⟨400, .error "No selected file"⟩, fs0, false, false, none⟩) := by
  constructor
  · intro h
    simp [App.analyze_video, h]
  · intro h hname
    simp [App.analyze_video, h, hname]

/-- Witness for C7 at the two concrete invalid requests. -/
theorem C7_validation_witness :
    App.analyze_video App.reqMissingVideo [] =
      ⟨⟨400, .error "No video file part"⟩, [], false, false, none⟩ ∧
    App.analyze_video App.reqEmptyFilename [] =
      ⟨⟨400, .error "No selected file"⟩, [], false, false, none⟩ :=
  ⟨(C7_validation_rejects_early App.reqMissingVideo []).1 rfl,
   (C7_validation_rejects_early App.reqEmptyFilename []).2 rfl rfl⟩

/-- Claim C10: the handler decides transcription failure by a substring
test; whenever the string returned by the transcription step contains
`"Error during transcription"` — even a genuine transcript that happens to
contain the phrase — the response is HTTP 500 with that whole string as
the error, and the analysis stage is never invoked. -/
theorem C10_marker_short_circuit (env : App.RequestEnv) (fs0 : List String)
    (ap : String)
    (hf : env.hasVideoField = true) (hn : ¬ env.filename = "")
    (hs : env.save = .ok ()) (hx : env.extractResult = some ap)
    (ht : strContains "Error during transcription"
      (App.transcribe_audio env.transcribe).text = true) :
    (App.analyze_video env fs0).resp =
      ⟨500, .error (App.transcribe_audio env.transcribe).text⟩ ∧
    (App.analyze_video env fs0).ragCalled = false := by
  simp [App.analyze_video, hf, hn, hs, hx, ht]

set_option maxRecDepth 10000 in
/-- Witness for C10: a successful transcription whose text merely mentions
the phrase is still answered with HTTP 500 and no analysis. -/
theorem C10_marker_witness :
    (App.analyze_video App.reqMarkerTranscript []).resp =
      ⟨500, .error (App.transcribe_audio App.reqMarkerTranscript.transcribe).text⟩ ∧
    (App.analyze_video App.reqMarkerTranscript []).ragCalled = false :=
  C10_marker_short_circuit App.reqMarkerTranscript [] "uploads/456.mp3"
    rfl (by decide) rfl rfl (by decide)

set_option maxRecDepth 10000 in
/-- Claim C2 counterexample: a request on which every stage up to analysis
succeeds and the remote generation call raises is answered with HTTP 200
and a success payload carrying the error text as the analysis — not with
the server-error status the claim requires. -/
theorem C2_generation_failure_counterexample :
    (App.analyze_video App.reqGenFail []).resp =
      ⟨200, .success "Incision made at midline."
        ("An error occurred during the RAG workflow: generation timeout")⟩ ∧
    (App.analyze_video App.reqGenFail []).resp.status ≠ 500 := by
  decide

/-- Claim C2, amended: when the Analysis Generator step fails (remote
generation error or timeout), `get_rag_analysis` catches the exception and
the handler responds HTTP 200 with a success payload whose analysis field
is the error message string; no server-error response is produced. -/
theorem C2_generation_failure_yields_200 (env : App.RequestEnv) (fs0 : List String)
    (ap : String) (docs : List String) (e : String)
    (hf : env.hasVideoField = true) (hn : ¬ env.filename = "")
    (hs : env.save = .ok ()) (hx : env.extractResult = some ap)
    (ht : strContains "Error during transcription"
      (App.transcribe_audio env.transcribe).text = false)
    (hc : env.rag.collectionOk = true)
    (hq : env.rag.query [(App.transcribe_audio env.transcribe).text] 5 = .ok docs)
    (hg : ∀ p, env.rag.generate p = .exn e) :
    (App.analyze_video env fs0).resp =
      ⟨200, .success (App.transcribe_audio env.transcribe).text
        ("An error occurred during the RAG workflow: " ++ e)⟩ := by
  simp [App.analyze_video, App.get_rag_analysis, hf, hn, hs, hx, ht, hc, hq, hg]

set_option maxRecDepth 10000 in
/-- Witness for the amended C2 at the concrete failing-generation request. -/
theorem C2_generation_failure_witness :
    (App.analyze_video App.reqGenFail []).resp =
      ⟨200, .success (App.transcribe_audio App.reqGenFail.transcribe).text
        ("An error occurred during the RAG workflow: " ++ "generation timeout")⟩ :=
  C2_generation_failure_yields_200 App.reqGenFail [] "uploads/456.mp3"
    ["A relevant passage"] "generation timeout" rfl (by decide) rfl rfl (by decide)
    rfl rfl (fun _ => rfl)

set_option maxRecDepth 10000 in
/-- Claim C3 counterexample: with the collection handle unopened, a request
that reaches the retrieval stage is answered with HTTP 200 and a success
payload (the typed error text standing in the analysis field), not with a
failure response. -/
theorem C3_unavailable_backend_counterexample :
    (App.analyze_video App.reqNoCollection []).resp =
      ⟨200, .success "Incision made at midline." App.chromaFailMsg⟩ ∧
    (App.analyze_video App.reqNoCollection []).resp.status ≠ 500 := by
  decide

/-- Claim C3, amended: if the vector collection handle failed to open at
process start, every request reaching the retrieval stage fails fast with
the explicit typed message of `chromaFailMsg`, and no query against the
store is attempted (the RAG run records no query call) — but the error is
surfaced inside an HTTP 200 success payload, not as a failure response. -/
theorem C3_unavailable_backend_fails_fast (env : App.RequestEnv) (fs0 : List String)
    (ap : String)
    (hf : env.hasVideoField = true) (hn : ¬ env.filename = "")
    (hs : env.save = .ok ()) (hx : env.extractResult = some ap)
    (ht : strContains "Error during transcription"
      (App.transcribe_audio env.transcribe).text = false)
    (hc : env.rag.collectionOk = false) :
    (App.analyze_video env fs0).rag = some ⟨App.chromaFailMsg, none, none, none⟩ ∧
    (App.analyze_video env fs0).resp =
      ⟨200, .success (App.transcribe_audio env.transcribe).text App.chromaFailMsg⟩ := by
  simp [App.analyze_video, App.get_rag_analysis, hf, hn, hs, hx, ht, hc]

set_option maxRecDepth 10000 in
/-- Witness for the amended C3 at the concrete unopened-collection request. -/
theorem C3_unavailable_backend_witness :
    (App.analyze_video App.reqNoCollection []).rag =
      some ⟨App.chromaFailMsg, none, none, none⟩ ∧
    (App.analyze_video App.reqNoCollection []).resp =
      ⟨200, .success (App.transcribe_audio App.reqNoCollection.transcribe).text
        App.chromaFailMsg⟩ :=
  C3_unavailable_backend_fails_fast App.reqNoCollection [] "uploads/456.mp3"
    rfl (by decide) rfl rfl (by decide) rfl

/-- Claim C6: with an open collection handle, the retrieval step issues
exactly one store query with the transcript as the single query text and
`n_results = 5`, and the context block is the store result joined in
returned order with the delimiter, with no re-ranking. -/
theorem C6_retrieval_requests_five (env : App.RagEnv) (t sys user : String)
    (hc : env.collectionOk = true) :
    (App.get_rag_analysis env t sys user).queryCall = some ([t], 5) ∧
    ∀ docs, env.query [t] 5 = .ok docs →
      (App.get_rag_analysis env t sys user).retrievedContext =
        some (String.intercalate App.ragDelim docs) := by
  unfold App.get_rag_analysis
  rw [hc]
  constructor
  · cases hq : env.query [t] 5 with
    | ok docs =>
      dsimp only
      cases env.generate (App.combined_prompt sys (String.intercalate App.ragDelim docs) user t) <;> rfl
    | exn e => rfl
  · intro docs hq
    rw [hq]
    dsimp only
    cases env.generate (App.combined_prompt sys (String.intercalate App.ragDelim docs) user t) <;> rfl

/-- Witness for C6 at a concrete store oracle returning two chunks. -/
theorem C6_retrieval_witness :
    (App.get_rag_analysis App.happyRag "q" "s" "u").queryCall = some (["q"], 5) ∧
    (App.get_rag_analysis App.happyRag "q" "s" "u").retrievedContext =
      some (String.intercalate App.ragDelim
        ["A relevant passage", "An irrelevant passage"]) :=
  ⟨(C6_retrieval_requests_five App.happyRag "q" "s" "u" rfl).1,
   (C6_retrieval_requests_five App.happyRag "q" "s" "u" rfl).2
     ["A relevant passage", "An irrelevant passage"] rfl⟩

/-- Claim C8 counterexample: when the remote deletion raises after a
successful generation, the call returns a transcription-error string — the
deletion failure is fatal to the result; and when generation raises, the
remote artifact is never deleted. -/
theorem C8_remote_delete_counterexample :
    App.transcribe_audio ⟨.ok "files/a", .ok "the transcript", .exn "delete failed"⟩ =
      ⟨"Error during transcription: delete failed", true⟩ ∧
    (App.transcribe_audio ⟨.ok "files/a", .exn "timeout", .ok ()⟩).deleteCalled
      = false := by
  decide

/-- Claim C8, amended: the remote artifact deletion is attempted exactly
when upload and generation both succeed — on a generation failure or
timeout the uploaded artifact is not deleted — and a failure of the
deletion is fatal, turning the otherwise successful transcription into a
transcription-error return. -/
theorem C8_remote_delete_semantics (env : App.TranscribeEnv) :
    ((App.transcribe_audio env).deleteCalled = true ↔
      (∃ a, env.upload = .ok a) ∧ (∃ t, env.generate = .ok t)) ∧
    (∀ a t e, env.upload = .ok a → env.generate = .ok t → env.deleteFile = .exn e →
      (App.transcribe_audio env).text = "Error during transcription: " ++ e) := by
  constructor
  · unfold App.transcribe_audio
    cases hu : env.upload with
    | exn e => simp [hu]
    | ok a =>
      cases hg : env.generate with
      | exn e => simp [hu, hg]
      | ok t =>
        cases hd : env.deleteFile <;> simp [hu, hg, hd]
  · intro a t e hu hg hd
    unfold App.transcribe_audio
    rw [hu, hg, hd]

/-- Witness for the amended C8 at a concrete failing-deletion oracle. -/
theorem C8_remote_delete_witness :
    (App.transcribe_audio ⟨.ok "files/a", .ok "t", .exn "boom"⟩).deleteCalled = true ∧
    (App.transcribe_audio ⟨.ok "files/a", .ok "t", .exn "boom"⟩).text =
      "Error during transcription: " ++ "boom" :=
  ⟨(C8_remote_delete_semantics ⟨.ok "files/a", .ok "t", .exn "boom"⟩).1.mpr
      ⟨⟨"files/a", rfl⟩, ⟨"t", rfl⟩⟩,
   (C8_remote_delete_semantics ⟨.ok "files/a", .ok "t", .exn "boom"⟩).2
      "files/a" "t" "boom" rfl rfl rfl⟩

/-! Helper lemmas for decimal identifier strings. -/

theorem decVal_foldl_shift (l : List Char) : ∀ v : Nat,
    l.foldl (fun a c => a * 10 + decDigitVal c) v =
      v * 10 ^ l.length + l.foldl (fun a c => a * 10 + decDigitVal c) 0 := by
  induction l with
  | nil => intro v; simp
  | cons c t ih =>
    intro v
    simp only [List.foldl_cons, List.length_cons]
    rw [ih (v * 10 + decDigitVal c), ih (0 * 10 + decDigitVal c)]
    ring

theorem decDigitVal_digitChar : ∀ r < 10, decDigitVal r.digitChar = r := by decide

theorem decVal_cons_digitChar (r : Nat) (hr : r < 10) (ds : List Char) :
    decVal (r.digitChar :: ds) = r * 10 ^ ds.length + decVal ds := by
  show List.foldl (fun a c => a * 10 + decDigitVal c) (0 * 10 + decDigitVal r.digitChar) ds
      = r * 10 ^ ds.length + decVal ds
  rw [decVal_foldl_shift ds]
  rw [decDigitVal_digitChar r hr]
  simp [decVal]

theorem decVal_toDigitsCore : ∀ fuel n ds, n < fuel →
    decVal (Nat.toDigitsCore 10 fuel n ds) = n * 10 ^ ds.length + decVal ds := by
  intro fuel
  induction fuel with
  | zero => intro n ds h; exact absurd h (Nat.not_lt_zero n)
  | succ f ih =>
    intro n ds h
    simp only [Nat.toDigitsCore]
    split
    · -- quotient zero: a single digit is emitted and n = n % 10
      rename_i hdiv
      rw [decVal_cons_digitChar (n % 10) (Nat.mod_lt n (by omega)) ds]
      have hmod : n % 10 = n := by omega
      rw [hmod]
    · -- quotient nonzero: recurse on it
      rename_i hdiv
      have hlt : n / 10 < f := by
        have h1 : n / 10 < n := Nat.div_lt_self (by omega) (by omega)
        omega
      rw [ih (n / 10) ((n % 10).digitChar :: ds) hlt]
      rw [decVal_cons_digitChar (n % 10) (Nat.mod_lt n (by omega)) ds]
      rw [List.length_cons, pow_succ]
      have hdm : 10 * (n / 10) + n % 10 = n := Nat.div_add_mod n 10
      conv_rhs => rw [← hdm]
      ring

theorem decVal_repr (n : Nat) : decVal (Nat.repr n).data = n := by
  show decVal (Nat.toDigitsCore 10 (n + 1) n []) = n
  rw [decVal_toDigitsCore (n + 1) n [] (Nat.lt_succ_self n)]
  simp [decVal]

theorem repr_injective {m n : Nat} (h : Nat.repr m = Nat.repr n) : m = n := by
  have h2 := congrArg (fun s => decVal s.data) h
  simpa [decVal_repr] using h2

theorem chunkId_injective : Function.Injective (fun n : Nat => "chunk_" ++ toString n) := by
  intro m n h
  have h2 : ("chunk_" ++ Nat.repr m).data = ("chunk_" ++ Nat.repr n).data :=
    congrArg String.data h
  simp only [String.data_append] at h2
  exact repr_injective (String.ext (List.append_cancel_left h2))

theorem embedGo_eq : ∀ (fuel : Nat) (l : List String) (i : Nat), l.length ≤ fuel →
    BuildDatabase.embedGo fuel i l =
      (List.range l.length).map (fun m => "chunk_" ++ toString (i + m)) := by
  intro fuel
  induction fuel with
  | zero =>
    intro l i h
    have hl : l = [] := List.eq_nil_of_length_eq_zero (Nat.le_zero.mp h)
    subst hl
    rfl
  | succ f ih =>
    intro l i h
    cases l with
    | nil => rfl
    | cons c rest =>
      show BuildDatabase.batchIds i ((c :: rest).take 100).length ++
          BuildDatabase.embedGo f (i + 100) ((c :: rest).drop 100) = _
      rw [ih ((c :: rest).drop 100) (i + 100)
        (by simp only [List.length_drop]; simp at h ⊢; omega)]
      simp only [List.length_take, List.length_cons, List.length_drop]
      by_cases hlen : rest.length + 1 ≤ 100
      · -- a single final batch
        have hmin : min 100 (rest.length + 1) = rest.length + 1 := by omega
        have hsub : rest.length + 1 - 100 = 0 := by omega
        rw [hmin, hsub]
        simp [BuildDatabase.batchIds]
      · -- a full batch of 100 followed by the remaining chunks
        have hmin : min 100 (rest.length + 1) = 100 := by omega
        have hsplit : rest.length + 1 = 100 + (rest.length + 1 - 100) := by omega
        rw [hmin]
        conv_rhs => rw [hsplit, List.range_add]
        rw [List.map_append, BuildDatabase.batchIds]
        congr 1
        rw [List.map_map]
        apply List.map_congr_left
        intro m _
        simp only [Function.comp_apply]
        rw [Nat.add_assoc]

/-- Claim C9 counterexample: in a run of the builder over two PDF files of
one chunk each, both chunks receive the identifier `chunk_0` — the
identifiers are not unique across the whole run. -/
theorem C9_ids_collide_across_pdfs :
    ¬ (BuildDatabase.main_run_ids [["a"], ["b"]]).Nodup := by
  decide

/-- Claim C9, amended: within a single `embed_and_store_chunks` call (one
PDF file) the identifiers are unique and stable — the chunk at position
`m` always receives `chunk_m` — but the numbering restarts at `chunk_0`
for every PDF file of a run, so identifiers collide whenever more than one
PDF produces chunks. -/
theorem C9_ids_unique_per_call (chunks : List String) :
    BuildDatabase.embed_and_store_ids chunks =
      (List.range chunks.length).map (fun m => "chunk_" ++ toString m) ∧
    (BuildDatabase.embed_and_store_ids chunks).Nodup := by
  have he := embedGo_eq chunks.length chunks 0 (Nat.le_refl _)
  simp only [Nat.zero_add] at he
  refine ⟨he, ?_⟩
  show (BuildDatabase.embedGo chunks.length 0 chunks).Nodup
  rw [he]
  exact (List.nodup_range chunks.length).map chunkId_injective

/-! Helper lemmas for locating prompt sections. -/

theorem afterChar_append_first (a : Char) (A B : List Char) (ha : a ∉ A) :
    afterChar a (A ++ a :: B) = B := by
  induction A with
  | nil => simp [afterChar]
  | cons c t ih =>
    have hc : ¬ c = a := by
      intro hh
      exact ha (hh ▸ List.mem_cons_self c t)
    simp only [List.cons_append, afterChar, if_neg hc]
    exact ih (fun hm => ha (List.mem_cons_of_mem c hm))

theorem mem_afterChar_of_decomp (s A B : List Char) (a b : Char)
    (h : s = A ++ a :: B) (hcount : s.count a = 1) (hb : b ∈ B) :
    b ∈ afterChar a s := by
  subst h
  rw [List.count_append, List.count_cons_self] at hcount
  have hA0 : List.count a A = 0 := by omega
  rw [afterChar_append_first a A B (List.count_eq_zero.mp hA0)]
  exact hb

set_option maxRecDepth 100000 in
/-- Claim C4 counterexample: for system instructions `"S"`, user
instructions `"%"`, context `"&"` and transcript `"T"`, the composite
prompt does not contain the four inputs in the claimed order system,
user, context, transcript: the unique `%` (user instructions) occurs
after the unique `&` (context), so no such ordered decomposition exists. -/
theorem C4_prompt_order_counterexample :
    ¬ ContainsOrdered "S" "%" "&" "T" (App.combined_prompt "S" "&" "%" "T") := by
  rintro ⟨w0, w1, w2, w3, w4, h⟩
  have hd := congrArg String.data h
  simp only [String.data_append] at hd
  have hdec : (App.combined_prompt "S" "&" "%" "T").data =
      (w0.data ++ ['S'] ++ w1.data) ++ '%' ::
        (w2.data ++ ['&'] ++ w3.data ++ ['T'] ++ w4.data) := by
    rw [hd]
    simp [List.append_assoc]
  have hmem : '&' ∈ afterChar '%' (App.combined_prompt "S" "&" "%" "T").data := by
    refine mem_afterChar_of_decomp _ _ _ '%' '&' hdec (by decide) ?_
    simp
  have hno : ¬ '&' ∈ afterChar '%' (App.combined_prompt "S" "&" "%" "T").data := by
    decide
  exact hno hmem

/-- Claim C4, amended: the composite prompt contains all four inputs
verbatim and non-overlapping, but concatenated in the fixed order system
instructions, labeled context section, user instructions, labeled
transcript section (context before user instructions, not after). -/
theorem C4_prompt_parts_in_code_order (sys user ctx trans : String) :
    ContainsOrdered sys ctx user trans (App.combined_prompt sys ctx user trans) := by
  refine ⟨"\n", "\n\n**Medical Context from Documentation:**\n---\n",
    "\n---\n\n**User\x27s Analysis Query:**\n",
    "\n\n**Surgical Transcript to Analyze:**\n---\n",
    "\n---\n\nBased *only* on the provided Medical Context, perform the analysis requested in the User\x27s Query on the Surgical Transcript.\n", ?_⟩
  unfold App.combined_prompt
  simp [String.append_assoc]
